import Mathlib

/-!
# Benchmark-fixture generators

A shallow embedding of the two generator programs
`bench-call-func-args/gen/gen_bench.go` and `bench-new-and-init/gen/gen_bench.go`.

* The Go type `int` is a signed integer of `bits` bits (32 or 64 depending on
  the target); values are mathematical integers and every arithmetic operator
  reduces its result with `wrap`.
* A slice is a list; `make` and an indexed write are fallible and report the
  run-time panic they raise. The allocation limit `maxAlloc` of the Go runtime
  is a constant of the target and is taken as a parameter.
* `main` is a sequence of steps over an explicit filesystem state.
-/

namespace GoExamples

/-! ## Go `int` arithmetic -/

/-- Smallest value of a `bits`-bit `int`. -/
def minInt (bits : Nat) : Int := -(2 ^ (bits - 1))

/-- Largest value of a `bits`-bit `int`. -/
def maxInt (bits : Nat) : Int := 2 ^ (bits - 1) - 1

/-- Reduction of a mathematical integer modulo `2 ^ bits` into the signed range
of a `bits`-bit `int`. -/
def wrap (bits : Nat) (x : Int) : Int :=
  (x + 2 ^ (bits - 1)) % 2 ^ bits - 2 ^ (bits - 1)

/-- Go `a + b` on `int`. -/
def add (bits : Nat) (a b : Int) : Int := wrap bits (a + b)

/-- Go `a * b` on `int`. -/
def mul (bits : Nat) (a b : Int) : Int := wrap bits (a * b)

/-- Go `a / b` on `int` for a non-zero divisor: the quotient truncated toward zero. -/
def quo (bits : Nat) (a b : Int) : Int := wrap bits (Int.tdiv a b)

/-! ## Slices and run-time panics -/

/-- Run-time panics the helper functions can raise. -/
inductive Panic where
  /-- The panic `makeslice: len out of range`. -/
  | makesliceLen
  /-- The panic `index out of range`. -/
  | indexOutOfRange
  deriving DecidableEq

/-- Size in bytes of an `int` of `bits` bits. -/
def intSize (bits : Nat) : Int := ((bits / 8 : Nat) : Int)

/-- Go `make([]int, n)` as `runtime.makeslice` decides it: the panic
`makeslice: len out of range` when `n` is negative, when the size in bytes
`n * intSize bits` overflows a `uintptr` of `bits` bits, or when that size
exceeds the allocation limit `maxAlloc` of the runtime; otherwise a slice of
`n` zeros. The limit is a constant of the target (`2^48` on amd64, `2^32 - 1`
on 386) and a parameter here. Exhaustion of the memory of the host by a
request that passes this check is outside the model. -/
def makeSlice (bits maxAlloc : Nat) (n : Int) : Except Panic (List Int) :=
  if n < 0 ∨ 2 ^ bits ≤ n * intSize bits ∨ (maxAlloc : Int) < n * intSize bits then
    .error .makesliceLen
  else .ok (List.replicate n.toNat 0)

/-- Go `array[i] = v`: panics when `i` is not below the length. -/
def setIndex (array : List Int) (i : Nat) (v : Int) : Except Panic (List Int) :=
  if i < array.length then .ok (array.set i v) else .error .indexOutOfRange

/-- The body `array[i] = i+1` run for each index of `indices` in turn. -/
def assignLoop (bits : Nat) : List Nat → List Int → Except Panic (List Int)
  | [], array => .ok array
  | i :: rest, array =>
    match setIndex array i (add bits (i : Int) 1) with
    | .error e => .error e
    | .ok array1 => assignLoop bits rest array1

/-- The slice `Items` returns whenever it returns: the value `i+1` of the loop
body at every index `i` below `n`. -/
def itemsList (bits : Nat) (n : Int) : List Int :=
  (List.range n.toNat).map (fun (j : Nat) => add bits (j : Int) 1)

/-! ## Helper sets, filesystem and template engine -/

/-- A value stored in a `template.FuncMap`: the two function types the generators
register, `func(n int) []int` and `func(n int) int`. -/
inductive Helper where
  /-- A helper of type `func(n int) []int`, which may panic. -/
  | slice (f : Int → Except Panic (List Int))
  /-- A helper of type `func(n int) int`. -/
  | scalar (f : Int → Int)

/-- A `template.FuncMap`: helper functions by name. -/
abbrev FuncMap := List (String × Helper)

/-- The helper registered under `name`, if any. -/
def FuncMap.find (funcs : FuncMap) (name : String) : Option Helper :=
  List.lookup name funcs

/-- The files of the working directory and whether `os.Create` can open a path. -/
structure World where
  /-- Content of the file at a path, `none` when there is no such file. -/
  files : String → Option String
  /-- Whether `os.Create` succeeds at a path. -/
  creatable : String → Bool

/-- Go `os.Create(path)`: on success the file exists and is empty (created or
truncated); on failure nothing changes. -/
def osCreate (w : World) (path : String) : Option World :=
  if w.creatable path then
    some ⟨fun p => if p = path then some "" else w.files p, w.creatable⟩
  else none

/-- A write of `s` to the open file at `path`: the bytes follow what the file
already holds. -/
def writeFile (w : World) (path : String) (s : String) : World :=
  ⟨fun p => if p = path then some ((w.files p).getD "" ++ s) else w.files p, w.creatable⟩

/-- What `Execute` did: the text it wrote and whether it returned an error. -/
structure Rendered where
  /-- The text written to the writer before returning. -/
  written : String
  /-- Whether `Execute` returned a non-nil error. -/
  failed : Bool

/-- The package `text/template` as the generators use it, with parsed templates
of type `T`. It is a library outside the repository and is taken as a parameter. -/
structure Engine (T : Type) where
  /-- The step `Funcs(funcs)` followed by parsing the text of the template file;
  `none` is a parse error. -/
  parse : FuncMap → String → Option T
  /-- The step `Execute(f, Data{Length: n})`. -/
  execute : FuncMap → T → Int → Rendered

/-- How a run of `main` ends. -/
inductive Exit where
  /-- The function `main` returned normally. -/
  | done
  /-- The call `panic(err)` after `os.Create` failed. -/
  | createError
  /-- The call `panic(err)` after `ParseFiles` could not open the template file. -/
  | templateNotFound
  /-- The call `panic(err)` after `ParseFiles` failed to parse the template text. -/
  | templateParse
  /-- The call `panic(err)` after `Execute` returned an error. -/
  | renderError
  deriving DecidableEq

/-- The literals in which the two `main` functions differ. -/
structure Generator where
  /-- The local `filename`. -/
  filename : String
  /-- The local `name`. -/
  name : String
  /-- The local `funcs`. -/
  funcs : FuncMap
  /-- The field `Length` of the `Data` value given to `Execute`. -/
  length : Int

/-- The path `fmt.Sprintf("gen/%s", name)`. -/
def Generator.templatePath (g : Generator) : String := "gen/" ++ g.name

/-- The body shared by both `main` functions: `os.Create(filename)`, then
`template.New(name).Funcs(funcs).ParseFiles(path)`, then `t.Execute(f, data)`,
each followed by `panic(err)` on error. The deferred `f.Close()` changes no
content. -/
def generate {T : Type} (engine : Engine T) (g : Generator) (w : World) : World × Exit :=
  match osCreate w g.filename with
  | none => (w, .createError)
  | some w1 =>
    match w1.files g.templatePath with
    | none => (w1, .templateNotFound)
    | some text =>
      match engine.parse g.funcs text with
      | none => (w1, .templateParse)
      | some t =>
        let r := engine.execute g.funcs t g.length
        (writeFile w1 g.filename r.written, if r.failed then .renderError else .done)

/-- The content of the output file and the exit of a run of `generate` whose
`os.Create` succeeded, read off the content of the template file. -/
def rendering {T : Type} (engine : Engine T) (g : Generator) :
    Option String → String × Exit
  | none => ("", .templateNotFound)
  | some text =>
    match engine.parse g.funcs text with
    | none => ("", .templateParse)
    | some t =>
      ((engine.execute g.funcs t g.length).written,
        if (engine.execute g.funcs t g.length).failed then .renderError else .done)

/-! ## Templates -/

/-- Modelled from the spec: the template files `gen/call_func_template.gotmpl`
and `gen/initial_template.gotmpl` are not under `src/`. A template is literal
text interspersed with directives that substitute the length value, call a
helper on the length and print the result inline, or call a helper on the
length and emit one block of text per element of the sequence it returns. -/
inductive Node where
  /-- Literal text. -/
  | text (s : String)
  /-- Substitution of the length value. -/
  | length
  /-- A helper called on the length, its result printed inline. -/
  | call (fn : String)
  /-- A loop over the sequence a helper returns on the length, with the text
  of the block for each element. -/
  | range (fn : String) (block : Int → String)

/-- Modelled from the spec: a template is a sequence of nodes. -/
abbrev Template := List Node

/-- Errors of rendering. -/
inductive RenderError where
  /-- The helper is not in the helper set. -/
  | undefined
  /-- The value ranged over is not a sequence. -/
  | cannotRange
  /-- The helper panicked. -/
  | panicked (p : Panic)
  deriving DecidableEq

/-- Modelled from the spec: whether the helper a node calls is in the helper
set; the parser rejects a template that calls an undefined function. -/
def Node.defined (funcs : FuncMap) : Node → Bool
  | .call fn => (funcs.find fn).isSome
  | .range fn _ => (funcs.find fn).isSome
  | _ => true

/-- The text `fmt` prints for a slice of integers. -/
def printSlice (xs : List Int) : String :=
  "[" ++ " ".intercalate (xs.map toString) ++ "]"

/-- Modelled from the spec: the chunks of text one node emits for `Length = n`,
one chunk per element for a loop; ranging over a scalar is an error. -/
def execNode (funcs : FuncMap) (n : Int) : Node → Except RenderError (List String)
  | .text s => .ok [s]
  | .length => .ok [toString n]
  | .call fn =>
    match funcs.find fn with
    | none => .error .undefined
    | some (.scalar f) => .ok [toString (f n)]
    | some (.slice f) =>
      match f n with
      | .error p => .error (.panicked p)
      | .ok xs => .ok [printSlice xs]
  | .range fn block =>
    match funcs.find fn with
    | none => .error .undefined
    | some (.scalar _) => .error .cannotRange
    | some (.slice f) =>
      match f n with
      | .error p => .error (.panicked p)
      | .ok xs => .ok (xs.map block)

/-- Modelled from the spec: the nodes are rendered in order; the chunks emitted
before an error stay written. -/
def execTemplate (funcs : FuncMap) (n : Int) : Template → List String × Option RenderError
  | [] => ([], none)
  | node :: rest =>
    match execNode funcs n node with
    | .error e => ([], some e)
    | .ok out => (out ++ (execTemplate funcs n rest).1, (execTemplate funcs n rest).2)

/-- Modelled from the spec: the template engine over `Template`, for a reader
`syn` of the concrete template text. -/
def templateEngine (syn : String → Option Template) : Engine Template :=
  ⟨fun funcs text =>
    match syn text with
    | none => none
    | some t => if t.all (Node.defined funcs) then some t else none,
   fun funcs t n =>
    ⟨String.join (execTemplate funcs n t).1, (execTemplate funcs n t).2.isSome⟩⟩

/-! ## The helper functions of `bench-call-func-args` -/

namespace BenchCallFuncArgs

/-- The helper `"Items"`:
`array := make([]int, n); for i := range array { array[i] = i+1 }; return array`.
The range clause evaluates the length once and visits `0 .. len-1`. -/
def Items (bits maxAlloc : Nat) (n : Int) : Except Panic (List Int) :=
  match makeSlice bits maxAlloc n with
  | .error e => .error e
  | .ok array => assignLoop bits (List.range array.length) array

/-- The helper `"Sum"`: `return n * (n + 1)/2`, parsed as `(n * (n + 1)) / 2`. -/
def Sum (bits : Nat) (n : Int) : Int :=
  quo bits (mul bits n (add bits n 1)) 2

/-- The local `funcs` of `main`. -/
def funcs (bits maxAlloc : Nat) : FuncMap :=
  [("Items", .slice (Items bits maxAlloc)), ("Sum", .scalar (Sum bits))]

/-- The literals of `main`: `filename`, `name`, `funcs` and `Data{Length: 30}`. -/
def generator (bits maxAlloc : Nat) : Generator :=
  ⟨"call_func_test.go", "call_func_template.gotmpl", funcs bits maxAlloc, 30⟩

/-- The function `main` of `bench-call-func-args/gen/gen_bench.go`. -/
def main {T : Type} (bits maxAlloc : Nat) (engine : Engine T) (w : World) : World × Exit :=
  generate engine (generator bits maxAlloc) w

end BenchCallFuncArgs

/-! ## The helper function of `bench-new-and-init` -/

namespace BenchNewAndInit

/-- The helper `"Items"`:
`array := make([]int, n); for i := range array { array[i] = i+1 }; return array`. -/
def Items (bits maxAlloc : Nat) (n : Int) : Except Panic (List Int) :=
  match makeSlice bits maxAlloc n with
  | .error e => .error e
  | .ok array => assignLoop bits (List.range array.length) array

/-- The local `funcs` of `main`. -/
def funcs (bits maxAlloc : Nat) : FuncMap :=
  [("Items", .slice (Items bits maxAlloc))]

/-- The literals of `main`: `filename`, `name`, `funcs` and `Data{Length: 60}`. -/
def generator (bits maxAlloc : Nat) : Generator :=
  ⟨"new_and_init_test.go", "initial_template.gotmpl", funcs bits maxAlloc, 60⟩

/-- The function `main` of `bench-new-and-init/gen/gen_bench.go`. -/
def main {T : Type} (bits maxAlloc : Nat) (engine : Engine T) (w : World) : World × Exit :=
  generate engine (generator bits maxAlloc) w

end BenchNewAndInit

/-! ## Sample inputs -/

/-- The constant `maxAlloc` of the Go runtime on amd64: `1 << 48`. -/
def maxAllocAmd64 : Nat := 2 ^ 48

/-- The constant `maxAlloc` of the Go runtime on 386: `1 << 32 - 1`. -/
def maxAlloc386 : Nat := 2 ^ 32 - 1

/-- An engine whose parsed template is the text itself and whose rendering
writes that text back. -/
def echoEngine : Engine String :=
  ⟨fun _ text => some text, fun _ t _ => ⟨t, false⟩⟩

/-- A working directory without files. -/
def emptyWorld : World :=
  ⟨fun _ => none, fun _ => true⟩

/-- A working directory that holds the output files of an earlier run and no
template file. -/
def staleWorld : World :=
  ⟨fun p => if p = "call_func_test.go" then some "package main"
    else if p = "new_and_init_test.go" then some "package main" else none,
   fun _ => true⟩

/-- A working directory that holds both template files and an output file of an
earlier run. -/
def sampleWorld : World :=
  ⟨fun p => if p = "gen/call_func_template.gotmpl" then some "first"
    else if p = "gen/initial_template.gotmpl" then some "second"
    else if p = "call_func_test.go" then some "package main" else none,
   fun _ => true⟩

/-- A working directory that holds the first template file and nothing else. -/
def templateOnlyWorld : World :=
  ⟨fun p => if p = "gen/call_func_template.gotmpl" then some "first" else none,
   fun _ => true⟩

/-- A working directory that holds the second template file and an output file
of an earlier run of the second generator. -/
def staleSecondWorld : World :=
  ⟨fun p => if p = "gen/initial_template.gotmpl" then some "second"
    else if p = "new_and_init_test.go" then some "package main" else none,
   fun _ => true⟩

/-- A block of text for one item. -/
def sampleBlock : Int → String := fun k => "v" ++ toString k ++ ";"

/-- A reader of template text that knows the two sample template texts. -/
def sampleSyn : String → Option Template := fun text =>
  if text = "first" then
    some [.text "a", .range "Items" sampleBlock, .text "b", .call "Sum", .text "c"]
  else if text = "second" then
    some [.text "a", .range "Items" sampleBlock, .text "c"]
  else none

/-! ## Arithmetic lemmas -/

theorem two_pow_bits (bits : Nat) (hb : 0 < bits) :
    (2 : Int) ^ bits = 2 * 2 ^ (bits - 1) := by
  obtain ⟨k, rfl⟩ : ∃ k, bits = k + 1 := ⟨bits - 1, by omega⟩
  simp [pow_succ, mul_comm]

theorem half_pos (bits : Nat) : (0 : Int) < 2 ^ (bits - 1) := by positivity

theorem wrap_eq_self (bits : Nat) (x : Int) (hb : 0 < bits)
    (hlo : minInt bits ≤ x) (hhi : x ≤ maxInt bits) : wrap bits x = x := by
  unfold wrap
  unfold minInt at hlo
  unfold maxInt at hhi
  have h2 := two_pow_bits bits hb
  have hp := half_pos bits
  rw [Int.emod_eq_of_lt (by omega) (by omega)]
  omega

theorem bits_pos_of_le_maxInt (bits : Nat) (x : Int) (h1 : 1 ≤ x) (hx : x ≤ maxInt bits) :
    1 < bits := by
  unfold maxInt at hx
  by_contra hb
  have : bits - 1 = 0 := by omega
  rw [this] at hx
  simp at hx
  omega

/-! ## The loop of `Items` -/

theorem assignLoop_spec (bits : Nat) :
    ∀ (indices : List Nat) (array : List Int), (∀ i ∈ indices, i < array.length) →
      ∃ out, assignLoop bits indices array = .ok out ∧ out.length = array.length ∧
        ∀ j : Nat, out[j]? = if j ∈ indices then some (add bits (j : Int) 1) else array[j]? := by
  intro indices
  induction indices with
  | nil => intro array _; exact ⟨array, rfl, rfl, by simp⟩
  | cons i rest ih =>
    intro array h
    have hi : i < array.length := h i (by simp)
    obtain ⟨out, h1, h2, h3⟩ := ih (array.set i (add bits (i : Int) 1)) (by
      intro k hk
      rw [List.length_set]
      exact h k (by simp [hk]))
    refine ⟨out, ?_, ?_, ?_⟩
    · simp [assignLoop, setIndex, hi, h1]
    · rw [h2, List.length_set]
    · intro j
      rw [h3 j, List.getElem?_set]
      by_cases hj : j ∈ rest
      · simp [hj]
      · by_cases hij : i = j
        · subst hij
          simp [hi]
        · have hji : ¬ j = i := fun e => hij e.symm
          simp [hj, hij, hji]

theorem makeSlice_assign (bits : Nat) (n : Int) (hn : 0 ≤ n) :
    assignLoop bits (List.range (List.replicate n.toNat (0 : Int)).length)
      (List.replicate n.toNat 0) = .ok (itemsList bits n) := by
  obtain ⟨out, h1, h2, h3⟩ := assignLoop_spec bits
    (List.range (List.replicate n.toNat (0 : Int)).length) (List.replicate n.toNat 0)
    (by intro i hi; simpa using hi)
  rw [h1]
  congr 1
  apply List.ext_getElem?
  intro j
  rw [h3 j]
  unfold itemsList
  by_cases hj : j < n.toNat
  · simp [hj, List.getElem?_range hj]
  · have hr : (List.range n.toNat).length ≤ j := by simp; omega
    simp [hj, List.getElem?_replicate, List.getElem?_eq_none hr]

theorem makeSlice_ok (bits maxAlloc : Nat) (n : Int) (h0 : 0 ≤ n)
    (hptr : n * intSize bits < 2 ^ bits) (hmem : n * intSize bits ≤ maxAlloc) :
    makeSlice bits maxAlloc n = .ok (List.replicate n.toNat 0) := by
  have h : ¬ (n < 0 ∨ 2 ^ bits ≤ n * intSize bits ∨ (maxAlloc : Int) < n * intSize bits) := by
    rintro (h | h | h)
    · omega
    · exact absurd hptr (not_lt.mpr h)
    · exact absurd hmem (not_le.mpr h)
  simp only [makeSlice, if_neg h]

theorem makeSlice_panic (bits maxAlloc : Nat) (n : Int)
    (h : n < 0 ∨ 2 ^ bits ≤ n * intSize bits ∨ (maxAlloc : Int) < n * intSize bits) :
    makeSlice bits maxAlloc n = .error .makesliceLen := by
  simp only [makeSlice, if_pos h]

theorem callFuncArgs_Items_ok (bits maxAlloc : Nat) (n : Int) (h0 : 0 ≤ n)
    (hptr : n * intSize bits < 2 ^ bits) (hmem : n * intSize bits ≤ maxAlloc) :
    BenchCallFuncArgs.Items bits maxAlloc n = .ok (itemsList bits n) := by
  simp only [BenchCallFuncArgs.Items, makeSlice_ok bits maxAlloc n h0 hptr hmem]
  exact makeSlice_assign bits n h0

theorem newAndInit_Items_ok (bits maxAlloc : Nat) (n : Int) (h0 : 0 ≤ n)
    (hptr : n * intSize bits < 2 ^ bits) (hmem : n * intSize bits ≤ maxAlloc) :
    BenchNewAndInit.Items bits maxAlloc n = .ok (itemsList bits n) := by
  simp only [BenchNewAndInit.Items, makeSlice_ok bits maxAlloc n h0 hptr hmem]
  exact makeSlice_assign bits n h0

theorem callFuncArgs_Items_panic (bits maxAlloc : Nat) (n : Int)
    (h : n < 0 ∨ 2 ^ bits ≤ n * intSize bits ∨ (maxAlloc : Int) < n * intSize bits) :
    BenchCallFuncArgs.Items bits maxAlloc n = .error .makesliceLen := by
  simp only [BenchCallFuncArgs.Items, makeSlice_panic bits maxAlloc n h]

theorem newAndInit_Items_panic (bits maxAlloc : Nat) (n : Int)
    (h : n < 0 ∨ 2 ^ bits ≤ n * intSize bits ∨ (maxAlloc : Int) < n * intSize bits) :
    BenchNewAndInit.Items bits maxAlloc n = .error .makesliceLen := by
  simp only [BenchNewAndInit.Items, makeSlice_panic bits maxAlloc n h]

theorem zero_allocatable (bits maxAlloc : Nat) :
    (0 : Int) * intSize bits < 2 ^ bits ∧ (0 : Int) * intSize bits ≤ maxAlloc := by
  constructor
  · rw [zero_mul]; positivity
  · rw [zero_mul]; exact Int.ofNat_nonneg maxAlloc

theorem eight_mul_lt_two_pow (b : Nat) (h : 6 ≤ b) : 8 * b < 2 ^ b := by
  induction b, h using Nat.le_induction with
  | base => decide
  | succ k hk ih =>
    rw [pow_succ]
    omega

theorem six_le_bits (bits : Nat) (h : 30 ≤ maxInt bits) : 6 ≤ bits := by
  by_contra hlt
  have hb : bits ≤ 5 := by omega
  interval_cases bits <;> simp [maxInt] at h

theorem small_no_overflow (bits : Nat) (k : Int) (h0 : 0 ≤ k) (hk : k ≤ 64)
    (h : 30 ≤ maxInt bits) : k * intSize bits < 2 ^ bits := by
  have h6 := six_le_bits bits h
  have h8 : ((8 * bits : Nat) : Int) < ((2 ^ bits : Nat) : Int) :=
    Int.ofNat_lt.mpr (eight_mul_lt_two_pow bits h6)
  push_cast at h8
  have hs : (0 : Int) ≤ intSize bits := Int.ofNat_nonneg _
  have hd : intSize bits * 8 ≤ (bits : Int) := by
    unfold intSize
    have := Nat.div_mul_le_self bits 8
    exact_mod_cast this
  nlinarith

theorem amd64_allocatable (n : Int) (h0 : 0 ≤ n) (h : n * (n + 1) ≤ maxInt 64) :
    n * intSize 64 < 2 ^ 64 ∧ n * intSize 64 ≤ (maxAllocAmd64 : Int) := by
  have hs : intSize 64 = 8 := by decide
  have hm : maxInt 64 = 9223372036854775807 := by decide
  have ha : (maxAllocAmd64 : Int) = 281474976710656 := by decide
  rw [hs, ha]
  rw [hm] at h
  have hn : n ≤ 3037000499 := by
    by_contra hc
    have : 3037000500 ≤ n := by omega
    nlinarith
  constructor
  · norm_num; omega
  · omega

theorem i386_allocatable (n : Int) (h0 : 0 ≤ n) (h : n * (n + 1) ≤ maxInt 32) :
    n * intSize 32 < 2 ^ 32 ∧ n * intSize 32 ≤ (maxAlloc386 : Int) := by
  have hs : intSize 32 = 4 := by decide
  have hm : maxInt 32 = 2147483647 := by decide
  have ha : (maxAlloc386 : Int) = 4294967295 := by decide
  rw [hs, ha]
  rw [hm] at h
  have hn : n ≤ 46340 := by
    by_contra hc
    have : 46341 ≤ n := by omega
    nlinarith
  constructor
  · norm_num; omega
  · omega

theorem itemsList_length (bits : Nat) (n : Int) : (itemsList bits n).length = n.toNat := by
  simp [itemsList]

theorem itemsList_eq (bits : Nat) (n : Int) (hn : n ≤ maxInt bits) :
    itemsList bits n = (List.range' 1 n.toNat).map (fun (k : Nat) => (k : Int)) := by
  unfold itemsList
  apply List.ext_getElem?
  intro j
  by_cases hj : j < n.toNat
  · have h1 : (1 : Int) ≤ n := by omega
    have hb := bits_pos_of_le_maxInt bits n h1 hn
    have hw : add bits (j : Int) 1 = (j : Int) + 1 := by
      unfold add
      apply wrap_eq_self bits _ (by omega)
      · have := half_pos bits
        unfold minInt
        omega
      · omega
    simp [List.getElem?_range hj, List.getElem?_range' 1 1 hj, hw]
    omega
  · have h1 : (List.range n.toNat).length ≤ j := by simp; omega
    have h2 : (List.range' 1 n.toNat).length ≤ j := by simp; omega
    rw [List.getElem?_map, List.getElem?_map, List.getElem?_eq_none h1,
      List.getElem?_eq_none h2]
    rfl

theorem sum_range' (m : Nat) :
    2 * ((List.range' 1 m).map (fun (k : Nat) => (k : Int))).sum = (m : Int) * (m + 1) := by
  induction m with
  | zero => simp
  | succ k ih =>
    rw [List.range'_1_concat, List.map_append, List.sum_append]
    simp only [List.map_cons, List.map_nil, List.sum_cons, List.sum_nil]
    push_cast
    linarith

theorem maxInt_nonneg (bits : Nat) : 0 ≤ maxInt bits := by
  have := half_pos bits
  unfold maxInt
  omega

theorem minInt_nonpos (bits : Nat) : minInt bits ≤ 0 := by
  have := half_pos bits
  unfold minInt
  omega

theorem Sum_exact (bits : Nat) (n : Int) (hb : 0 < bits) (h0 : 0 ≤ n)
    (h : n * (n + 1) ≤ maxInt bits) : BenchCallFuncArgs.Sum bits n = n * (n + 1) / 2 := by
  have hmin := minInt_nonpos bits
  unfold BenchCallFuncArgs.Sum quo mul
  have hprod : 0 ≤ n * (n + 1) := by positivity
  have hadd : n * add bits n 1 = n * (n + 1) := by
    rcases eq_or_lt_of_le h0 with h00 | hpos
    · rw [← h00]; simp
    · have : n + 1 ≤ n * (n + 1) := by nlinarith
      unfold add
      rw [wrap_eq_self bits (n + 1) hb (by omega) (by omega)]
  rw [hadd, wrap_eq_self bits (n * (n + 1)) hb (by omega) h,
    Int.tdiv_eq_ediv hprod (by norm_num)]
  apply wrap_eq_self bits _ hb <;> omega

theorem itemsList_sum (bits : Nat) (n : Int) (h0 : 0 ≤ n) (hn : n ≤ maxInt bits) :
    (itemsList bits n).sum = n * (n + 1) / 2 := by
  rw [itemsList_eq bits n hn]
  have h := sum_range' n.toNat
  have hc : ((n.toNat : Nat) : Int) = n := Int.toNat_of_nonneg h0
  rw [hc] at h
  omega

theorem le_of_mul_succ_le (n m : Int) (h0 : 0 ≤ n) (h : n * (n + 1) ≤ m) : n ≤ m := by
  nlinarith

/-! ## Claims about `Items` and `Sum` -/

/-- Counterexample to C1 as stated: on amd64 (64-bit `int`, allocation limit
`2^48`) the length `n = 2^62` is an `int` at least 1, yet `make([]int, n)`
panics with `makeslice: len out of range` in both generators and no sequence is
returned; on 386 (32-bit `int`, limit `2^32 - 1`) the same happens at
`n = 2^30`. -/
theorem Items_large_counterexample :
    (1 : Int) ≤ 4611686018427387904 ∧ (4611686018427387904 : Int) ≤ maxInt 64 ∧
    BenchCallFuncArgs.Items 64 maxAllocAmd64 4611686018427387904 = .error .makesliceLen ∧
    BenchNewAndInit.Items 64 maxAllocAmd64 4611686018427387904 = .error .makesliceLen ∧
    (1073741824 : Int) ≤ maxInt 32 ∧
    BenchCallFuncArgs.Items 32 maxAlloc386 1073741824 = .error .makesliceLen ∧
    BenchNewAndInit.Items 32 maxAlloc386 1073741824 = .error .makesliceLen :=
  ⟨by decide, by decide,
   callFuncArgs_Items_panic 64 maxAllocAmd64 _ (Or.inr (Or.inl (by decide))),
   newAndInit_Items_panic 64 maxAllocAmd64 _ (Or.inr (Or.inl (by decide))),
   by decide,
   callFuncArgs_Items_panic 32 maxAlloc386 _ (Or.inr (Or.inl (by decide))),
   newAndInit_Items_panic 32 maxAlloc386 _ (Or.inr (Or.inl (by decide)))⟩

/-- C1, amended: for every `int` value `n ≥ 1` whose slice passes the length
check of the runtime (the size `n * intSize bits` neither overflows a `uintptr`
nor exceeds `maxAlloc`), the helper `Items` of both generators returns the
sequence `[1, 2, ..., n]`: its length is `n`, its element at index `i` is `i+1`
for every `i < n`, and it is strictly ascending. -/
theorem Items_returns_one_to_n (bits maxAlloc : Nat) (n : Int) (h1 : 1 ≤ n)
    (hn : n ≤ maxInt bits) (hptr : n * intSize bits < 2 ^ bits)
    (hmem : n * intSize bits ≤ maxAlloc) :
    ∃ xs : List Int,
      BenchCallFuncArgs.Items bits maxAlloc n = .ok xs ∧
      BenchNewAndInit.Items bits maxAlloc n = .ok xs ∧
      xs = (List.range' 1 n.toNat).map (fun (k : Nat) => (k : Int)) ∧
      (xs.length : Int) = n ∧
      (∀ i : Nat, (i : Int) < n → xs[i]? = some ((i : Int) + 1)) ∧
      List.Pairwise (fun a b => a < b) xs := by
  have h0 : 0 ≤ n := by omega
  refine ⟨itemsList bits n, callFuncArgs_Items_ok bits maxAlloc n h0 hptr hmem,
    newAndInit_Items_ok bits maxAlloc n h0 hptr hmem, itemsList_eq bits n hn, ?_, ?_, ?_⟩
  · rw [itemsList_length]; omega
  · intro i hi
    have hi2 : i < n.toNat := by omega
    rw [itemsList_eq bits n hn, List.getElem?_map, List.getElem?_range' 1 1 hi2]
    simp
    omega
  · rw [itemsList_eq bits n hn, List.pairwise_map]
    exact (List.pairwise_lt_range' 1 n.toNat).imp (fun h => by exact_mod_cast h)

/-- Witness of C1 (amended) at `n = 3` on amd64 and on 386. -/
theorem Items_returns_one_to_n_witness :
    (1 : Int) ≤ 3 ∧ (3 : Int) ≤ maxInt 64 ∧
    (∃ xs : List Int,
      BenchCallFuncArgs.Items 64 maxAllocAmd64 3 = .ok xs ∧
      BenchNewAndInit.Items 64 maxAllocAmd64 3 = .ok xs ∧
      xs = (List.range' 1 (3 : Int).toNat).map (fun (k : Nat) => (k : Int)) ∧
      (xs.length : Int) = 3 ∧
      (∀ i : Nat, (i : Int) < 3 → xs[i]? = some ((i : Int) + 1)) ∧
      List.Pairwise (fun a b => a < b) xs) ∧
    (∃ xs : List Int,
      BenchCallFuncArgs.Items 32 maxAlloc386 3 = .ok xs ∧
      BenchNewAndInit.Items 32 maxAlloc386 3 = .ok xs ∧
      xs = (List.range' 1 (3 : Int).toNat).map (fun (k : Nat) => (k : Int)) ∧
      (xs.length : Int) = 3 ∧
      (∀ i : Nat, (i : Int) < 3 → xs[i]? = some ((i : Int) + 1)) ∧
      List.Pairwise (fun a b => a < b) xs) :=
  ⟨by decide, by decide,
   Items_returns_one_to_n 64 maxAllocAmd64 3 (by decide) (by decide) (by decide) (by decide),
   Items_returns_one_to_n 32 maxAlloc386 3 (by decide) (by decide) (by decide) (by decide)⟩

/-- Counterexample to C2 as stated: for a 64-bit `int` and `n = 3037000500`
the product `n * (n + 1)` exceeds the `int` range and `Sum` returns a negative
number; for a 32-bit `int` the same happens at `n = 46341`. -/
theorem Sum_overflow_counterexample :
    (0 : Int) ≤ 3037000500 ∧ (3037000500 : Int) ≤ maxInt 64 ∧
    BenchCallFuncArgs.Sum 64 3037000500 = -4611686016836150558 ∧
    (3037000500 * (3037000500 + 1) / 2 : Int) = 4611686020018625250 ∧
    BenchCallFuncArgs.Sum 64 3037000500 ≠ 3037000500 * (3037000500 + 1) / 2 ∧
    (46341 : Int) ≤ maxInt 32 ∧
    BenchCallFuncArgs.Sum 32 46341 = -1073716337 ∧
    (46341 * (46341 + 1) / 2 : Int) = 1073767311 ∧
    BenchCallFuncArgs.Sum 32 46341 ≠ 46341 * (46341 + 1) / 2 := by
  refine ⟨by decide, by decide, by decide, by decide, by decide, by decide, by decide,
    by decide, by decide⟩

/-- C2, amended: for every `n ≥ 0` whose product `n * (n + 1)` does not exceed
the largest `int`, `Sum` returns the mathematical value `n*(n+1)/2`, and the
division by two is exact. -/
theorem Sum_eq_triangular (bits : Nat) (n : Int) (hb : 0 < bits) (h0 : 0 ≤ n)
    (h : n * (n + 1) ≤ maxInt bits) :
    BenchCallFuncArgs.Sum bits n = n * (n + 1) / 2 ∧
    2 * BenchCallFuncArgs.Sum bits n = n * (n + 1) := by
  have hs := Sum_exact bits n hb h0 h
  refine ⟨hs, ?_⟩
  rw [hs]
  have he : Even (n * (n + 1)) := Int.even_mul_succ_self n
  obtain ⟨k, hk⟩ := he
  omega

/-- Witness of C2 (amended): `Sum(0) = 0`, `Sum(30) = 465` and `Sum(60) = 1830`
for 64-bit and 32-bit `int`. -/
theorem Sum_eq_triangular_witness :
    BenchCallFuncArgs.Sum 64 0 = 0 ∧ BenchCallFuncArgs.Sum 64 30 = 465 ∧
    BenchCallFuncArgs.Sum 64 60 = 1830 ∧ BenchCallFuncArgs.Sum 32 0 = 0 ∧
    BenchCallFuncArgs.Sum 32 30 = 465 ∧ BenchCallFuncArgs.Sum 32 60 = 1830 :=
  ⟨(Sum_eq_triangular 64 0 (by decide) (by decide) (by decide)).1,
   (Sum_eq_triangular 64 30 (by decide) (by decide) (by decide)).1,
   (Sum_eq_triangular 64 60 (by decide) (by decide) (by decide)).1,
   (Sum_eq_triangular 32 0 (by decide) (by decide) (by decide)).1,
   (Sum_eq_triangular 32 30 (by decide) (by decide) (by decide)).1,
   (Sum_eq_triangular 32 60 (by decide) (by decide) (by decide)).1⟩

/-- Counterexample to C3 as stated: for a 64-bit `int`, `Items(3037000500)`
returns a slice whose elements sum to `4611686020018625250`, while
`Sum(3037000500)` is `-4611686016836150558`; for a 32-bit `int` the same
happens at `n = 46341`. -/
theorem Sum_ne_sum_Items_counterexample :
    (∃ xs : List Int, BenchCallFuncArgs.Items 64 maxAllocAmd64 3037000500 = .ok xs ∧
      xs.sum = 4611686020018625250 ∧
      BenchCallFuncArgs.Sum 64 3037000500 = -4611686016836150558 ∧
      BenchCallFuncArgs.Sum 64 3037000500 ≠ xs.sum) ∧
    (∃ xs : List Int, BenchCallFuncArgs.Items 32 maxAlloc386 46341 = .ok xs ∧
      xs.sum = 1073767311 ∧
      BenchCallFuncArgs.Sum 32 46341 = -1073716337 ∧
      BenchCallFuncArgs.Sum 32 46341 ≠ xs.sum) := by
  constructor
  · refine ⟨itemsList 64 3037000500,
      callFuncArgs_Items_ok 64 maxAllocAmd64 _ (by decide) (by decide) (by decide), ?_,
      by decide, ?_⟩
    · rw [itemsList_sum 64 _ (by decide) (by decide)]; decide
    · rw [itemsList_sum 64 _ (by decide) (by decide)]; decide
  · refine ⟨itemsList 32 46341,
      callFuncArgs_Items_ok 32 maxAlloc386 _ (by decide) (by decide) (by decide), ?_,
      by decide, ?_⟩
    · rw [itemsList_sum 32 _ (by decide) (by decide)]; decide
    · rw [itemsList_sum 32 _ (by decide) (by decide)]; decide

/-- C3, amended: for every `n ≥ 0` whose product `n * (n + 1)` does not exceed
the largest `int`, `Items(n)` returns a slice and `Sum(n)` equals the sum of
its elements; the division in `n*(n+1)/2` loses nothing. The slice has to pass
the length check of the runtime, which every such `n` does on amd64 and on 386;
for another target it is a hypothesis. -/
theorem Sum_eq_sum_Items (bits maxAlloc : Nat) (n : Int) (hb : 0 < bits) (h0 : 0 ≤ n)
    (h : n * (n + 1) ≤ maxInt bits)
    (halloc : (n * intSize bits < 2 ^ bits ∧ n * intSize bits ≤ maxAlloc) ∨
      (bits = 64 ∧ maxAlloc = maxAllocAmd64) ∨ (bits = 32 ∧ maxAlloc = maxAlloc386)) :
    ∃ xs : List Int, BenchCallFuncArgs.Items bits maxAlloc n = .ok xs ∧
      BenchCallFuncArgs.Sum bits n = xs.sum ∧ 2 * xs.sum = n * (n + 1) := by
  have hn : n ≤ maxInt bits := le_of_mul_succ_le n _ h0 h
  have hfit : n * intSize bits < 2 ^ bits ∧ n * intSize bits ≤ maxAlloc := by
    rcases halloc with hfit | ⟨hb64, hm⟩ | ⟨hb32, hm⟩
    · exact hfit
    · subst hb64
      subst hm
      exact amd64_allocatable n h0 h
    · subst hb32
      subst hm
      exact i386_allocatable n h0 h
  refine ⟨itemsList bits n, callFuncArgs_Items_ok bits maxAlloc n h0 hfit.1 hfit.2, ?_, ?_⟩
  · rw [itemsList_sum bits n h0 hn]
    exact Sum_exact bits n hb h0 h
  · rw [itemsList_eq bits n hn]
    have h2 := sum_range' n.toNat
    rw [Int.toNat_of_nonneg h0] at h2
    exact h2

/-- Witness of C3 (amended): `n = 30` on amd64, the largest `n` within the
bound on the product on amd64 and on 386, and `n = 30` on a target given by its
length check alone. -/
theorem Sum_eq_sum_Items_witness :
    (∃ xs : List Int, BenchCallFuncArgs.Items 64 maxAllocAmd64 30 = .ok xs ∧
      BenchCallFuncArgs.Sum 64 30 = xs.sum ∧ 2 * xs.sum = 30 * (30 + 1)) ∧
    (∃ xs : List Int, BenchCallFuncArgs.Items 64 maxAllocAmd64 3037000499 = .ok xs ∧
      BenchCallFuncArgs.Sum 64 3037000499 = xs.sum ∧
      2 * xs.sum = 3037000499 * (3037000499 + 1)) ∧
    (∃ xs : List Int, BenchCallFuncArgs.Items 32 maxAlloc386 46340 = .ok xs ∧
      BenchCallFuncArgs.Sum 32 46340 = xs.sum ∧ 2 * xs.sum = 46340 * (46340 + 1)) ∧
    (∃ xs : List Int, BenchCallFuncArgs.Items 64 1024 30 = .ok xs ∧
      BenchCallFuncArgs.Sum 64 30 = xs.sum ∧ 2 * xs.sum = 30 * (30 + 1)) :=
  ⟨Sum_eq_sum_Items 64 maxAllocAmd64 30 (by decide) (by decide) (by decide)
     (Or.inr (Or.inl ⟨rfl, rfl⟩)),
   Sum_eq_sum_Items 64 maxAllocAmd64 3037000499 (by decide) (by decide) (by decide)
     (Or.inr (Or.inl ⟨rfl, rfl⟩)),
   Sum_eq_sum_Items 32 maxAlloc386 46340 (by decide) (by decide) (by decide)
     (Or.inr (Or.inr ⟨rfl, rfl⟩)),
   Sum_eq_sum_Items 64 1024 30 (by decide) (by decide) (by decide)
     (Or.inl ⟨by decide, by decide⟩)⟩

/-- C9: the helper `Items` of `bench-call-func-args` and the helper `Items` of
`bench-new-and-init` are the same function: on every `n` both fail with the
same panic or both return the same slice. -/
theorem Items_same_in_both_generators (bits maxAlloc : Nat) (n : Int) :
    BenchCallFuncArgs.Items bits maxAlloc n = BenchNewAndInit.Items bits maxAlloc n ∧
    ((∃ p, BenchCallFuncArgs.Items bits maxAlloc n = .error p ∧
        BenchNewAndInit.Items bits maxAlloc n = .error p) ∨
     (∃ xs, BenchCallFuncArgs.Items bits maxAlloc n = .ok xs ∧
        BenchNewAndInit.Items bits maxAlloc n = .ok xs)) := by
  have hB : BenchNewAndInit.Items bits maxAlloc n = BenchCallFuncArgs.Items bits maxAlloc n :=
    rfl
  refine ⟨hB.symm, ?_⟩
  rw [hB]
  cases BenchCallFuncArgs.Items bits maxAlloc n with
  | error p => exact Or.inl ⟨p, rfl, rfl⟩
  | ok xs => exact Or.inr ⟨xs, rfl, rfl⟩

/-- Counterexample to C10 as stated: on amd64 the lengths `MaxInt64` and `2^47`
are not negative, yet the allocation panics with `makeslice: len out of range`
in both generators; on 386 the same happens at `2^30`. -/
theorem Items_nonneg_panics_counterexample :
    (0 : Int) ≤ 9223372036854775807 ∧ (9223372036854775807 : Int) = maxInt 64 ∧
    BenchCallFuncArgs.Items 64 maxAllocAmd64 9223372036854775807 = .error .makesliceLen ∧
    BenchNewAndInit.Items 64 maxAllocAmd64 9223372036854775807 = .error .makesliceLen ∧
    (0 : Int) ≤ 140737488355328 ∧
    BenchCallFuncArgs.Items 64 maxAllocAmd64 140737488355328 = .error .makesliceLen ∧
    BenchNewAndInit.Items 64 maxAllocAmd64 140737488355328 = .error .makesliceLen ∧
    (0 : Int) ≤ 1073741824 ∧
    BenchCallFuncArgs.Items 32 maxAlloc386 1073741824 = .error .makesliceLen ∧
    BenchNewAndInit.Items 32 maxAlloc386 1073741824 = .error .makesliceLen :=
  ⟨by decide, by decide,
   callFuncArgs_Items_panic 64 maxAllocAmd64 _ (Or.inr (Or.inl (by decide))),
   newAndInit_Items_panic 64 maxAllocAmd64 _ (Or.inr (Or.inl (by decide))),
   by decide,
   callFuncArgs_Items_panic 64 maxAllocAmd64 _ (Or.inr (Or.inr (by decide))),
   newAndInit_Items_panic 64 maxAllocAmd64 _ (Or.inr (Or.inr (by decide))),
   by decide,
   callFuncArgs_Items_panic 32 maxAlloc386 _ (Or.inr (Or.inr (by decide))),
   newAndInit_Items_panic 32 maxAlloc386 _ (Or.inr (Or.inr (by decide)))⟩

/-- C10, amended: `Items` returns a slice if and only if `n ≥ 0` and the slice
passes the length check of the runtime (the size `n * intSize bits` neither
overflows a `uintptr` nor exceeds `maxAlloc`). In that case the allocation and
every indexed write succeed; for `n < 0`, and for `n` beyond that limit, the
allocation panics and no slice, empty or not, is returned. -/
theorem Items_succeeds_iff_allocatable (bits maxAlloc : Nat) (n : Int) :
    ((∃ xs, BenchCallFuncArgs.Items bits maxAlloc n = .ok xs) ↔
      (0 ≤ n ∧ n * intSize bits < 2 ^ bits ∧ n * intSize bits ≤ maxAlloc)) ∧
    ((∃ xs, BenchNewAndInit.Items bits maxAlloc n = .ok xs) ↔
      (0 ≤ n ∧ n * intSize bits < 2 ^ bits ∧ n * intSize bits ≤ maxAlloc)) ∧
    BenchCallFuncArgs.Items bits maxAlloc n =
      (if n < 0 ∨ 2 ^ bits ≤ n * intSize bits ∨ (maxAlloc : Int) < n * intSize bits then
        .error .makesliceLen
       else .ok ((List.range n.toNat).map (fun (i : Nat) => add bits (i : Int) 1))) ∧
    BenchNewAndInit.Items bits maxAlloc n =
      (if n < 0 ∨ 2 ^ bits ≤ n * intSize bits ∨ (maxAlloc : Int) < n * intSize bits then
        .error .makesliceLen
       else .ok ((List.range n.toNat).map (fun (i : Nat) => add bits (i : Int) 1))) := by
  by_cases hp : n < 0 ∨ 2 ^ bits ≤ n * intSize bits ∨ (maxAlloc : Int) < n * intSize bits
  · have ha := callFuncArgs_Items_panic bits maxAlloc n hp
    have hb := newAndInit_Items_panic bits maxAlloc n hp
    have hno : ¬ (0 ≤ n ∧ n * intSize bits < 2 ^ bits ∧ n * intSize bits ≤ maxAlloc) := by
      rintro ⟨h0, h1, h2⟩
      rcases hp with h | h | h
      · omega
      · exact absurd h1 (not_lt.mpr h)
      · exact absurd h2 (not_le.mpr h)
    refine ⟨?_, ?_, ?_, ?_⟩
    · rw [ha]; constructor
      · rintro ⟨xs, h⟩; cases h
      · intro h; exact absurd h hno
    · rw [hb]; constructor
      · rintro ⟨xs, h⟩; cases h
      · intro h; exact absurd h hno
    · rw [ha, if_pos hp]
    · rw [hb, if_pos hp]
  · have h0 : 0 ≤ n := by
      by_contra h; exact hp (Or.inl (by omega))
    have hptr : n * intSize bits < 2 ^ bits := by
      by_contra h; exact hp (Or.inr (Or.inl (not_lt.mp h)))
    have hmem : n * intSize bits ≤ maxAlloc := by
      by_contra h; exact hp (Or.inr (Or.inr (not_le.mp h)))
    have ha := callFuncArgs_Items_ok bits maxAlloc n h0 hptr hmem
    have hb := newAndInit_Items_ok bits maxAlloc n h0 hptr hmem
    refine ⟨⟨fun _ => ⟨h0, hptr, hmem⟩, fun _ => ⟨_, ha⟩⟩,
      ⟨fun _ => ⟨h0, hptr, hmem⟩, fun _ => ⟨_, hb⟩⟩, ?_, ?_⟩
    · rw [ha, if_neg hp]; rfl
    · rw [hb, if_neg hp]; rfl

/-! ## Lemmas about `generate` -/

theorem osCreate_ok (w : World) (path : String) (hc : w.creatable path = true) :
    osCreate w path = some ⟨fun p => if p = path then some "" else w.files p, w.creatable⟩ := by
  simp [osCreate, hc]

theorem generate_not_found {T : Type} (engine : Engine T) (g : Generator) (w : World)
    (hne : g.templatePath ≠ g.filename) (hc : w.creatable g.filename = true)
    (ht : w.files g.templatePath = none) :
    generate engine g w =
      (⟨fun p => if p = g.filename then some "" else w.files p, w.creatable⟩,
        .templateNotFound) := by
  simp [generate, osCreate_ok w g.filename hc, hne, ht]

theorem generate_parse_error {T : Type} (engine : Engine T) (g : Generator) (w : World)
    (text : String)
    (hne : g.templatePath ≠ g.filename) (hc : w.creatable g.filename = true)
    (ht : w.files g.templatePath = some text) (hp : engine.parse g.funcs text = none) :
    generate engine g w =
      (⟨fun p => if p = g.filename then some "" else w.files p, w.creatable⟩,
        .templateParse) := by
  simp [generate, osCreate_ok w g.filename hc, hne, ht, hp]

theorem generate_executed {T : Type} (engine : Engine T) (g : Generator) (w : World)
    (text : String) (t : T)
    (hne : g.templatePath ≠ g.filename) (hc : w.creatable g.filename = true)
    (ht : w.files g.templatePath = some text) (hp : engine.parse g.funcs text = some t) :
    generate engine g w =
      (⟨fun p => if p = g.filename then some (engine.execute g.funcs t g.length).written
          else w.files p, w.creatable⟩,
        if (engine.execute g.funcs t g.length).failed then .renderError else .done) := by
  simp only [generate, osCreate_ok w g.filename hc, hne, ht, hp, if_false, writeFile]
  congr 2
  funext p
  by_cases hp : p = g.filename
  · simp [hp]
  · simp [hp]

theorem callFuncArgs_paths (bits maxAlloc : Nat) :
    (BenchCallFuncArgs.generator bits maxAlloc).templatePath ≠
      (BenchCallFuncArgs.generator bits maxAlloc).filename := by
  show ("gen/" ++ "call_func_template.gotmpl" : String) ≠ "call_func_test.go"
  decide

theorem newAndInit_paths (bits maxAlloc : Nat) :
    (BenchNewAndInit.generator bits maxAlloc).templatePath ≠
      (BenchNewAndInit.generator bits maxAlloc).filename := by
  show ("gen/" ++ "initial_template.gotmpl" : String) ≠ "new_and_init_test.go"
  decide

/-! ## Claims about the generators -/

/-- Counterexample to C5 as stated: with the template file missing, a run of
either generator ends with the template-resolution panic, yet an output file
left by an earlier run has been truncated and an absent one has been created. -/
theorem main_missing_template_counterexample :
    staleWorld.files "gen/call_func_template.gotmpl" = none ∧
    staleWorld.files "call_func_test.go" = some "package main" ∧
    (BenchCallFuncArgs.main 64 maxAllocAmd64 echoEngine staleWorld).2 = .templateNotFound ∧
    (BenchCallFuncArgs.main 64 maxAllocAmd64 echoEngine staleWorld).1.files
      "call_func_test.go" = some "" ∧
    emptyWorld.files "call_func_test.go" = none ∧
    (BenchCallFuncArgs.main 64 maxAllocAmd64 echoEngine emptyWorld).2 = .templateNotFound ∧
    (BenchCallFuncArgs.main 64 maxAllocAmd64 echoEngine emptyWorld).1.files
      "call_func_test.go" = some "" ∧
    staleWorld.files "gen/initial_template.gotmpl" = none ∧
    staleWorld.files "new_and_init_test.go" = some "package main" ∧
    (BenchNewAndInit.main 64 maxAllocAmd64 echoEngine staleWorld).2 = .templateNotFound ∧
    (BenchNewAndInit.main 64 maxAllocAmd64 echoEngine staleWorld).1.files
      "new_and_init_test.go" = some "" ∧
    (BenchCallFuncArgs.main 64 maxAllocAmd64 echoEngine staleWorld).1 ≠ staleWorld ∧
    (BenchNewAndInit.main 64 maxAllocAmd64 echoEngine emptyWorld).1 ≠ emptyWorld := by
  refine ⟨by decide, by decide, by decide, by decide, by decide, by decide, by decide,
    by decide, by decide, by decide, by decide, ?_, ?_⟩
  · intro h
    have h2 := congrArg (fun w => w.files "call_func_test.go") h
    revert h2
    decide
  · intro h
    have h2 := congrArg (fun w => w.files "new_and_init_test.go") h
    revert h2
    decide

/-- C5, amended: when the template file cannot be found and the output file can
be opened, either generator ends with the template-resolution panic; by then
`os.Create` has run, so afterwards the output file exists and is empty, and
every other file is as before. -/
theorem main_missing_template {T : Type} (bits maxAlloc : Nat) (engine : Engine T)
    (g : Generator) (w : World)
    (hg : g = BenchCallFuncArgs.generator bits maxAlloc ∨
      g = BenchNewAndInit.generator bits maxAlloc)
    (hc : w.creatable g.filename = true) (ht : w.files g.templatePath = none) :
    (generate engine g w).2 = .templateNotFound ∧
    (generate engine g w).1.files g.filename = some "" ∧
    (∀ p, p ≠ g.filename → (generate engine g w).1.files p = w.files p) ∧
    (generate engine g w).1.creatable = w.creatable ∧
    (g = BenchCallFuncArgs.generator bits maxAlloc →
      BenchCallFuncArgs.main bits maxAlloc engine w = generate engine g w) ∧
    (g = BenchNewAndInit.generator bits maxAlloc →
      BenchNewAndInit.main bits maxAlloc engine w = generate engine g w) := by
  have hne : g.templatePath ≠ g.filename := by
    rcases hg with rfl | rfl
    · exact callFuncArgs_paths bits maxAlloc
    · exact newAndInit_paths bits maxAlloc
  rw [generate_not_found engine g w hne hc ht]
  refine ⟨rfl, by simp, ?_, rfl, ?_, ?_⟩
  · intro p hp
    simp [hp]
  · intro h
    subst h
    exact generate_not_found engine _ w (callFuncArgs_paths bits maxAlloc) hc ht
  · intro h
    subst h
    exact generate_not_found engine _ w (newAndInit_paths bits maxAlloc) hc ht

/-- Witness of C5 (amended): the first generator started in a directory whose
output file is left from an earlier run and whose template is missing. -/
theorem main_missing_template_witness :
    (BenchCallFuncArgs.main 64 maxAllocAmd64 echoEngine staleWorld).2 = .templateNotFound ∧
    (BenchCallFuncArgs.main 64 maxAllocAmd64 echoEngine staleWorld).1.files
      "call_func_test.go" = some "" :=
  ⟨(main_missing_template 64 maxAllocAmd64 echoEngine
      (BenchCallFuncArgs.generator 64 maxAllocAmd64) staleWorld
      (Or.inl rfl) (by decide) (by decide)).1,
   (main_missing_template 64 maxAllocAmd64 echoEngine
      (BenchCallFuncArgs.generator 64 maxAllocAmd64) staleWorld
      (Or.inl rfl) (by decide) (by decide)).2.1⟩

theorem templateEngine_parse (syn : String → Option Template) (funcs : FuncMap)
    (text : String) (t : Template) (hs : syn text = some t)
    (hd : t.all (Node.defined funcs) = true) :
    (templateEngine syn).parse funcs text = some t := by
  simp only [templateEngine, hs, hd, if_true]

theorem templateEngine_parse_undefined (syn : String → Option Template) (funcs : FuncMap)
    (text : String) (t : Template) (fn : String) (hs : syn text = some t)
    (hm : Node.call fn ∈ t) (hf : funcs.find fn = none) :
    (templateEngine syn).parse funcs text = none := by
  simp only [templateEngine, hs]
  rw [if_neg]
  intro h
  have h2 := List.all_eq_true.mp h _ hm
  simp [Node.defined, hf] at h2

theorem generate_templateEngine (syn : String → Option Template) (g : Generator) (w : World)
    (text : String) (t : Template) (chunks : List String)
    (hne : g.templatePath ≠ g.filename) (hc : w.creatable g.filename = true)
    (ht : w.files g.templatePath = some text) (hs : syn text = some t)
    (hd : t.all (Node.defined g.funcs) = true)
    (hx : execTemplate g.funcs g.length t = (chunks, none)) :
    (generate (templateEngine syn) g w).2 = .done ∧
    (generate (templateEngine syn) g w).1.files g.filename = some (String.join chunks) := by
  rw [generate_executed (templateEngine syn) g w text t hne hc ht
    (templateEngine_parse syn g.funcs text t hs hd)]
  simp [templateEngine, hx]

theorem blocks_getElem (block : Int → String) (m k : Nat) (h1 : 1 ≤ k) (hk : k ≤ m) :
    ((List.range' 1 m).map (fun (j : Nat) => block (j : Int)))[k - 1]? = some (block (k : Int)) := by
  have hlt : k - 1 < m := by omega
  rw [List.getElem?_map, List.getElem?_range' 1 1 hlt]
  have : 1 + 1 * (k - 1) = k := by omega
  rw [this]
  rfl

theorem callFuncArgs_range (bits maxAlloc : Nat) (n : Int) (block : Int → String)
    (h0 : 0 ≤ n) (hn : n ≤ maxInt bits) (hptr : n * intSize bits < 2 ^ bits)
    (hmem : n * intSize bits ≤ maxAlloc) :
    execNode (BenchCallFuncArgs.funcs bits maxAlloc) n (.range "Items" block) =
      .ok ((List.range' 1 n.toNat).map (fun (k : Nat) => block (k : Int))) := by
  have hf : (BenchCallFuncArgs.funcs bits maxAlloc).find "Items" =
      some (.slice (BenchCallFuncArgs.Items bits maxAlloc)) := rfl
  simp only [execNode, hf, callFuncArgs_Items_ok bits maxAlloc n h0 hptr hmem,
    itemsList_eq bits n hn, List.map_map]
  rfl

theorem newAndInit_range (bits maxAlloc : Nat) (n : Int) (block : Int → String)
    (h0 : 0 ≤ n) (hn : n ≤ maxInt bits) (hptr : n * intSize bits < 2 ^ bits)
    (hmem : n * intSize bits ≤ maxAlloc) :
    execNode (BenchNewAndInit.funcs bits maxAlloc) n (.range "Items" block) =
      .ok ((List.range' 1 n.toNat).map (fun (k : Nat) => block (k : Int))) := by
  have hf : (BenchNewAndInit.funcs bits maxAlloc).find "Items" =
      some (.slice (BenchNewAndInit.Items bits maxAlloc)) := rfl
  simp only [execNode, hf, newAndInit_Items_ok bits maxAlloc n h0 hptr hmem,
    itemsList_eq bits n hn, List.map_map]
  rfl

theorem callFuncArgs_call_Sum (bits maxAlloc : Nat) (n : Int) :
    execNode (BenchCallFuncArgs.funcs bits maxAlloc) n (.call "Sum") =
      .ok [toString (BenchCallFuncArgs.Sum bits n)] := rfl

theorem bits_pos_of_maxInt (bits : Nat) (h : 1 ≤ maxInt bits) : 0 < bits := by
  have := bits_pos_of_le_maxInt bits 1 (le_refl 1) h
  omega

/-- C4: `Items(0)` returns the empty slice in both generators, and a loop over
`Items(0)` emits zero blocks for every block function, so the text rendered for
the loop is empty. -/
theorem Items_zero_empty (bits maxAlloc : Nat) (block : Int → String) :
    BenchCallFuncArgs.Items bits maxAlloc 0 = .ok [] ∧
    BenchNewAndInit.Items bits maxAlloc 0 = .ok [] ∧
    execNode (BenchCallFuncArgs.funcs bits maxAlloc) 0 (.range "Items" block) = .ok [] ∧
    execNode (BenchNewAndInit.funcs bits maxAlloc) 0 (.range "Items" block) = .ok [] ∧
    String.join
      (execTemplate (BenchCallFuncArgs.funcs bits maxAlloc) 0 [.range "Items" block]).1 = "" ∧
    String.join
      (execTemplate (BenchNewAndInit.funcs bits maxAlloc) 0 [.range "Items" block]).1 = "" := by
  have hz := zero_allocatable bits maxAlloc
  have ha : BenchCallFuncArgs.Items bits maxAlloc 0 = .ok [] :=
    callFuncArgs_Items_ok bits maxAlloc 0 (le_refl 0) hz.1 hz.2
  have hb : BenchNewAndInit.Items bits maxAlloc 0 = .ok [] :=
    newAndInit_Items_ok bits maxAlloc 0 (le_refl 0) hz.1 hz.2
  have hra : execNode (BenchCallFuncArgs.funcs bits maxAlloc) 0 (.range "Items" block) =
      .ok [] :=
    callFuncArgs_range bits maxAlloc 0 block (le_refl 0) (maxInt_nonneg bits) hz.1 hz.2
  have hrb : execNode (BenchNewAndInit.funcs bits maxAlloc) 0 (.range "Items" block) =
      .ok [] :=
    newAndInit_range bits maxAlloc 0 block (le_refl 0) (maxInt_nonneg bits) hz.1 hz.2
  refine ⟨ha, hb, hra, hrb, ?_, ?_⟩
  · simp only [execTemplate, hra]
    rfl
  · simp only [execTemplate, hrb]
    rfl

/-- C6: the first generator, with `Length` 30 and the helpers `Items` and
`Sum`, renders a loop over `Items(Length)` as exactly 30 blocks, the `k`-th
being the block of the integer `k`, and renders `Sum(Length)` as the literal
`465`; a run of `main` on a template made of such a loop and such a call
between literal texts writes these chunks, in order, to `call_func_test.go`.
The target is one where `930` is an `int` and a slice of 30 `int` is within
the allocation limit of the runtime. -/
theorem callFuncArgs_renders_30_blocks_and_sum (bits maxAlloc : Nat) (block : Int → String)
    (syn : String → Option Template) (w : World) (text pre mid post : String)
    (hbits : 930 ≤ maxInt bits) (hmem : 30 * intSize bits ≤ maxAlloc)
    (hc : w.creatable "call_func_test.go" = true)
    (hf : w.files "gen/call_func_template.gotmpl" = some text)
    (hs : syn text =
      some [.text pre, .range "Items" block, .text mid, .call "Sum", .text post]) :
    (BenchCallFuncArgs.generator bits maxAlloc).length = 30 ∧
    execNode (BenchCallFuncArgs.funcs bits maxAlloc) 30 (.range "Items" block) =
      .ok ((List.range' 1 30).map (fun (k : Nat) => block (k : Int))) ∧
    ((List.range' 1 30).map (fun (k : Nat) => block (k : Int))).length = 30 ∧
    (∀ k : Nat, 1 ≤ k → k ≤ 30 →
      ((List.range' 1 30).map (fun (k : Nat) => block (k : Int)))[k - 1]? =
        some (block (k : Int))) ∧
    BenchCallFuncArgs.Sum bits 30 = 465 ∧
    execNode (BenchCallFuncArgs.funcs bits maxAlloc) 30 (.call "Sum") = .ok ["465"] ∧
    (BenchCallFuncArgs.main bits maxAlloc (templateEngine syn) w).2 = .done ∧
    (BenchCallFuncArgs.main bits maxAlloc (templateEngine syn) w).1.files
        "call_func_test.go" =
      some (String.join ([pre] ++ (List.range' 1 30).map (fun (k : Nat) => block (k : Int))
        ++ [mid, "465", post])) := by
  have hb : 0 < bits := bits_pos_of_maxInt bits (by omega)
  have hsum : BenchCallFuncArgs.Sum bits 30 = 465 := by
    rw [Sum_exact bits 30 hb (by norm_num) (by norm_num; omega)]
    norm_num
  have hptr := small_no_overflow bits 30 (by norm_num) (by norm_num) (by omega)
  have hrange := callFuncArgs_range bits maxAlloc 30 block (by norm_num) (by omega) hptr hmem
  have hcall : execNode (BenchCallFuncArgs.funcs bits maxAlloc) 30 (.call "Sum") =
      .ok ["465"] := by
    rw [callFuncArgs_call_Sum, hsum]
    rfl
  have hexec : execTemplate (BenchCallFuncArgs.funcs bits maxAlloc) 30
      [.text pre, .range "Items" block, .text mid, .call "Sum", .text post] =
      ([pre] ++ (List.range' 1 30).map (fun (k : Nat) => block (k : Int))
        ++ [mid, "465", post], none) := by
    simp only [execTemplate, hrange, hcall]
    simp [execNode]
  have hrun := generate_templateEngine syn (BenchCallFuncArgs.generator bits maxAlloc) w
    text _ _ (callFuncArgs_paths bits maxAlloc) hc hf hs rfl hexec
  exact ⟨rfl, hrange, by simp, fun k h1 hk => blocks_getElem block 30 k h1 hk, hsum, hcall,
    hrun.1, hrun.2⟩

/-- Witness of C6 on amd64, with the sample template and the sample working
directory. -/
theorem callFuncArgs_renders_30_blocks_and_sum_witness :
    (BenchCallFuncArgs.main 64 maxAllocAmd64 (templateEngine sampleSyn) sampleWorld).2 =
      .done ∧
    (BenchCallFuncArgs.main 64 maxAllocAmd64 (templateEngine sampleSyn) sampleWorld).1.files
        "call_func_test.go" =
      some (String.join (["a"] ++ (List.range' 1 30).map (fun (k : Nat) => sampleBlock (k : Int))
        ++ ["b", "465", "c"])) :=
  (callFuncArgs_renders_30_blocks_and_sum 64 maxAllocAmd64 sampleBlock sampleSyn sampleWorld
    "first" "a" "b" "c" (by decide) (by decide) (by decide) (by decide)
    (by simp [sampleSyn])).2.2.2.2.2.2

/-- C7: the second generator, with `Length` 60, registers `Items` and no `Sum`;
it renders a loop over `Items(Length)` as exactly 60 blocks, the `k`-th being
the block of the integer `k`, and a run of `main` on a template made of such a
loop between literal texts writes these chunks to `new_and_init_test.go`; a
template that calls `Sum` is rejected, so no sum literal can be embedded. The
target is one where `60` is an `int` and a slice of 60 `int` is within the
allocation limit of the runtime. -/
theorem newAndInit_renders_60_blocks_without_sum (bits maxAlloc : Nat) (block : Int → String)
    (syn : String → Option Template) (w : World) (text pre post : String)
    (hbits : 60 ≤ maxInt bits) (hmem : 60 * intSize bits ≤ maxAlloc)
    (hc : w.creatable "new_and_init_test.go" = true)
    (hf : w.files "gen/initial_template.gotmpl" = some text)
    (hs : syn text = some [.text pre, .range "Items" block, .text post]) :
    (BenchNewAndInit.generator bits maxAlloc).length = 60 ∧
    ((BenchNewAndInit.funcs bits maxAlloc).find "Items").isSome = true ∧
    (BenchNewAndInit.funcs bits maxAlloc).find "Sum" = none ∧
    execNode (BenchNewAndInit.funcs bits maxAlloc) 60 (.range "Items" block) =
      .ok ((List.range' 1 60).map (fun (k : Nat) => block (k : Int))) ∧
    ((List.range' 1 60).map (fun (k : Nat) => block (k : Int))).length = 60 ∧
    (∀ k : Nat, 1 ≤ k → k ≤ 60 →
      ((List.range' 1 60).map (fun (k : Nat) => block (k : Int)))[k - 1]? =
        some (block (k : Int))) ∧
    (BenchNewAndInit.main bits maxAlloc (templateEngine syn) w).2 = .done ∧
    (BenchNewAndInit.main bits maxAlloc (templateEngine syn) w).1.files
        "new_and_init_test.go" =
      some (String.join ([pre] ++ (List.range' 1 60).map (fun (k : Nat) => block (k : Int))
        ++ [post])) ∧
    execNode (BenchNewAndInit.funcs bits maxAlloc) 60 (.call "Sum") = .error .undefined ∧
    (∀ (syn2 : String → Option Template) (text2 : String) (t : Template),
      w.files "gen/initial_template.gotmpl" = some text2 → syn2 text2 = some t →
      Node.call "Sum" ∈ t →
      (BenchNewAndInit.main bits maxAlloc (templateEngine syn2) w).2 = .templateParse ∧
      (BenchNewAndInit.main bits maxAlloc (templateEngine syn2) w).1.files
        "new_and_init_test.go" = some "") := by
  have hptr := small_no_overflow bits 60 (by norm_num) (by norm_num) (by omega)
  have hrange := newAndInit_range bits maxAlloc 60 block (by norm_num) (by omega) hptr hmem
  have hexec : execTemplate (BenchNewAndInit.funcs bits maxAlloc) 60
      [.text pre, .range "Items" block, .text post] =
      ([pre] ++ (List.range' 1 60).map (fun (k : Nat) => block (k : Int)) ++ [post], none) := by
    simp only [execTemplate, hrange]
    simp [execNode]
  have hrun := generate_templateEngine syn (BenchNewAndInit.generator bits maxAlloc) w text _ _
    (newAndInit_paths bits maxAlloc) hc hf hs rfl hexec
  refine ⟨rfl, rfl, rfl, hrange, by simp, fun k h1 hk => blocks_getElem block 60 k h1 hk,
    hrun.1, hrun.2, rfl, ?_⟩
  intro syn2 text2 t hf2 hs2 hm
  have hp := templateEngine_parse_undefined syn2 (BenchNewAndInit.funcs bits maxAlloc) text2 t
    "Sum" hs2 hm rfl
  have h := generate_parse_error (templateEngine syn2) (BenchNewAndInit.generator bits maxAlloc)
    w text2 (newAndInit_paths bits maxAlloc) hc hf2 hp
  unfold BenchNewAndInit.main
  rw [h]
  exact ⟨rfl, by simp [BenchNewAndInit.generator]⟩

/-- Witness of C7 on amd64, with the sample template and the sample working
directory. -/
theorem newAndInit_renders_60_blocks_without_sum_witness :
    (BenchNewAndInit.funcs 64 maxAllocAmd64).find "Sum" = none ∧
    (BenchNewAndInit.main 64 maxAllocAmd64 (templateEngine sampleSyn) sampleWorld).2 = .done ∧
    (BenchNewAndInit.main 64 maxAllocAmd64 (templateEngine sampleSyn) sampleWorld).1.files
        "new_and_init_test.go" =
      some (String.join (["a"] ++ (List.range' 1 60).map (fun (k : Nat) => sampleBlock (k : Int))
        ++ ["c"])) :=
  (fun h => ⟨h.2.2.1, h.2.2.2.2.2.2.1, h.2.2.2.2.2.2.2.1⟩)
    (newAndInit_renders_60_blocks_without_sum 64 maxAllocAmd64 sampleBlock sampleSyn
      sampleWorld "second" "a" "c" (by decide) (by decide) (by decide) (by decide)
      (by simp [sampleSyn]))

theorem generate_eq_rendering {T : Type} (engine : Engine T) (g : Generator) (w : World)
    (hne : g.templatePath ≠ g.filename) (hc : w.creatable g.filename = true) :
    generate engine g w =
      (⟨fun p => if p = g.filename then some (rendering engine g (w.files g.templatePath)).1
          else w.files p, w.creatable⟩,
        (rendering engine g (w.files g.templatePath)).2) := by
  cases ht : w.files g.templatePath with
  | none => rw [generate_not_found engine g w hne hc ht]; rfl
  | some text =>
    cases hp : engine.parse g.funcs text with
    | none =>
      rw [generate_parse_error engine g w text hne hc ht hp]
      simp [rendering, hp]
    | some t =>
      rw [generate_executed engine g w text t hne hc ht hp]
      simp [rendering, hp]

/-- C8: a run of the generator is deterministic and idempotent. For all paths
with the output apart from the template, every helper set and every length,
two runs with the same template file, from any two states of the working
directory, end the same way and leave the same content in the output file; that
content is the text rendered from the template and nothing of what the file
held before; a second run over the state left by the first changes nothing.
Both `main` functions are such runs, so two runs of `BenchCallFuncArgs.main`,
and two runs of `BenchNewAndInit.main`, end the same way and leave the same
output file, and a second run of either reproduces the state of the first. -/
theorem main_deterministic_idempotent {T : Type} (bits maxAlloc : Nat) (engine : Engine T)
    (g : Generator) (w1 w2 : World) (hne : g.templatePath ≠ g.filename)
    (hc1 : w1.creatable g.filename = true) (hc2 : w2.creatable g.filename = true)
    (ht : w1.files g.templatePath = w2.files g.templatePath) :
    (generate engine g w1).2 = (generate engine g w2).2 ∧
    (generate engine g w1).1.files g.filename = (generate engine g w2).1.files g.filename ∧
    (∀ text t, w1.files g.templatePath = some text → engine.parse g.funcs text = some t →
      (generate engine g w1).1.files g.filename =
        some (engine.execute g.funcs t g.length).written) ∧
    generate engine g (generate engine g w1).1 = generate engine g w1 ∧
    (g = BenchCallFuncArgs.generator bits maxAlloc →
      BenchCallFuncArgs.main bits maxAlloc engine w1 = generate engine g w1 ∧
      BenchCallFuncArgs.main bits maxAlloc engine w2 = generate engine g w2 ∧
      (BenchCallFuncArgs.main bits maxAlloc engine w1).2 =
        (BenchCallFuncArgs.main bits maxAlloc engine w2).2 ∧
      (BenchCallFuncArgs.main bits maxAlloc engine w1).1.files "call_func_test.go" =
        (BenchCallFuncArgs.main bits maxAlloc engine w2).1.files "call_func_test.go" ∧
      BenchCallFuncArgs.main bits maxAlloc engine
          (BenchCallFuncArgs.main bits maxAlloc engine w1).1 =
        BenchCallFuncArgs.main bits maxAlloc engine w1) ∧
    (g = BenchNewAndInit.generator bits maxAlloc →
      BenchNewAndInit.main bits maxAlloc engine w1 = generate engine g w1 ∧
      BenchNewAndInit.main bits maxAlloc engine w2 = generate engine g w2 ∧
      (BenchNewAndInit.main bits maxAlloc engine w1).2 =
        (BenchNewAndInit.main bits maxAlloc engine w2).2 ∧
      (BenchNewAndInit.main bits maxAlloc engine w1).1.files "new_and_init_test.go" =
        (BenchNewAndInit.main bits maxAlloc engine w2).1.files "new_and_init_test.go" ∧
      BenchNewAndInit.main bits maxAlloc engine
          (BenchNewAndInit.main bits maxAlloc engine w1).1 =
        BenchNewAndInit.main bits maxAlloc engine w1) := by
  have h1 := generate_eq_rendering engine g w1 hne hc1
  have h2 := generate_eq_rendering engine g w2 hne hc2
  have hexit : (generate engine g w1).2 = (generate engine g w2).2 := by
    rw [h1, h2, ht]
  have hfile : (generate engine g w1).1.files g.filename =
      (generate engine g w2).1.files g.filename := by
    rw [h1, h2, ht]
    simp
  have hagain : generate engine g (generate engine g w1).1 = generate engine g w1 := by
    rw [h1]
    have h3 := generate_eq_rendering engine g
      ⟨fun p => if p = g.filename then some (rendering engine g (w1.files g.templatePath)).1
        else w1.files p, w1.creatable⟩ hne hc1
    simp only [if_neg hne] at h3
    rw [h3]
    congr 2
    funext p
    by_cases hp : p = g.filename
    · simp [hp]
    · simp [hp]
  refine ⟨hexit, hfile, ?_, hagain, ?_, ?_⟩
  · intro text t hf hp
    rw [h1, hf]
    simp [rendering, hp]
  · intro h
    subst h
    exact ⟨rfl, rfl, hexit, hfile, hagain⟩
  · intro h
    subst h
    exact ⟨rfl, rfl, hexit, hfile, hagain⟩

/-- Witness of C8 on amd64 for both generators: each is run from a working
directory that holds an output file of an earlier run and from one that does
not, with the same template file. -/
theorem main_deterministic_idempotent_witness :
    ((BenchCallFuncArgs.main 64 maxAllocAmd64 (templateEngine sampleSyn) sampleWorld).1.files
        "call_func_test.go" =
      (BenchCallFuncArgs.main 64 maxAllocAmd64 (templateEngine sampleSyn)
        templateOnlyWorld).1.files "call_func_test.go" ∧
     BenchCallFuncArgs.main 64 maxAllocAmd64 (templateEngine sampleSyn)
        (BenchCallFuncArgs.main 64 maxAllocAmd64 (templateEngine sampleSyn) sampleWorld).1 =
      BenchCallFuncArgs.main 64 maxAllocAmd64 (templateEngine sampleSyn) sampleWorld) ∧
    ((BenchNewAndInit.main 64 maxAllocAmd64 (templateEngine sampleSyn) staleSecondWorld).1.files
        "new_and_init_test.go" =
      (BenchNewAndInit.main 64 maxAllocAmd64 (templateEngine sampleSyn)
        sampleWorld).1.files "new_and_init_test.go" ∧
     BenchNewAndInit.main 64 maxAllocAmd64 (templateEngine sampleSyn)
        (BenchNewAndInit.main 64 maxAllocAmd64 (templateEngine sampleSyn)
          staleSecondWorld).1 =
      BenchNewAndInit.main 64 maxAllocAmd64 (templateEngine sampleSyn) staleSecondWorld) :=
  ⟨(fun h => ⟨h.2.2.2.1, h.2.2.2.2⟩)
    ((main_deterministic_idempotent 64 maxAllocAmd64 (templateEngine sampleSyn)
      (BenchCallFuncArgs.generator 64 maxAllocAmd64) sampleWorld templateOnlyWorld
      (callFuncArgs_paths 64 maxAllocAmd64) (by decide) (by decide)
      (by decide)).2.2.2.2.1 rfl),
   (fun h => ⟨h.2.2.2.1, h.2.2.2.2⟩)
    ((main_deterministic_idempotent 64 maxAllocAmd64 (templateEngine sampleSyn)
      (BenchNewAndInit.generator 64 maxAllocAmd64) staleSecondWorld sampleWorld
      (newAndInit_paths 64 maxAllocAmd64) (by decide) (by decide)
      (by decide)).2.2.2.2.2 rfl)⟩

end GoExamples
